import Mathlib

/-!
# Verification of the blog-tweet selection-and-decision engine

Shallow embedding of `src/lambda.js`: the paginated aggregation of tweet
templates and tweet history into an enriched population, the
frequency-inverse weighted selector `randomTweet`, the recent-activity gate
`checkForNaturalTweets`, and the pipeline orchestration of the exported
`handler` (side effects are recorded as an explicit effect trace).

Conventions of the embedding:
* The DynamoDB keyed collection (a JS array indexed by the numeric
  `template-id` key) is modelled as a list of `Tweet` records kept strictly
  sorted by `templateId`; JS numeric-keyed arrays iterate in ascending key
  order, so insertion is a sorted upsert.
* Promise rejection (including a thrown `TypeError`) is modelled with
  `Option`/`StepResult.err`.
* `Math.random()` is modelled by a rational parameter `q` with `0 ≤ q < 1`.
* JS floating-point weight arithmetic is modelled with exact rationals.
-/

namespace BlogTweet

/-- A raw record of the `blog-tweet-templates` table, as consumed by
`getTemplates`: key `template-id`, message text, link slug, enabled flag. -/
structure TemplateRecord where
  templateId : Nat
  message : String
  slug : String
  enabled : Bool
deriving DecidableEq, Repr

/-- A template enriched with its `tweeted` usage count (the JS code stores
the count on the item itself: `item.tweeted = 0`). -/
structure Tweet where
  templateId : Nat
  message : String
  slug : String
  enabled : Bool
  tweeted : Nat
deriving DecidableEq, Repr

/-- A record of the `blog-tweet-history` table.  Aggregation reads only its
`template-id` field, so only that field is modelled. -/
structure HistoryRecord where
  templateId : Nat
deriving DecidableEq, Repr

/-- `allItems[item["template-id"]] = item`: keyed upsert into the collection,
which iterates in ascending key order. -/
def insertTweet : List Tweet → Tweet → List Tweet
  | [], t => [t]
  | x :: xs, t =>
    if t.templateId < x.templateId then t :: x :: xs
    else if t.templateId = x.templateId then t :: xs
    else x :: insertTweet xs t

/-- `item.tweeted = 0` before the item joins the collection. -/
def mkTweet (r : TemplateRecord) : Tweet :=
  ⟨r.templateId, r.message, r.slug, r.enabled, 0⟩

/-- `getTemplates`: fold every page of the template scan into the keyed
collection, starting from the empty collection. -/
def getTemplates (pages : List (List TemplateRecord)) : List Tweet :=
  pages.flatten.foldl (fun acc r => insertTweet acc (mkTweet r)) []

/-- `enriched[item["template-id"]].tweeted += 1`.  When no collection entry
carries the referenced key, the JS expression throws a `TypeError`
(reading `.tweeted` of `undefined`), modelled as `none`. -/
def bumpTweeted (id : Nat) : List Tweet → Option (List Tweet)
  | [] => none
  | x :: xs =>
    if x.templateId = id then some ({ x with tweeted := x.tweeted + 1 } :: xs)
    else (bumpTweeted id xs).map (fun ys => x :: ys)

/-- The history half of `getHistory`: fold every history record into the
template collection, incrementing usage counts; a record referencing an
unknown template id aborts the fold with the thrown error (`none`). -/
def getHistoryItems (tweets : List Tweet) : List HistoryRecord → Option (List Tweet)
  | [] => some tweets
  | r :: rs =>
    match bumpTweeted r.templateId tweets with
    | none => none
    | some enriched => getHistoryItems enriched rs

/-- The enriched population built from the template pages and the history
pages, as the `getTemplates` / `getHistory` promise chain computes it. -/
def buildPopulation (tpages : List (List TemplateRecord))
    (hpages : List (List HistoryRecord)) : Option (List Tweet) :=
  getHistoryItems (getTemplates tpages) hpages.flatten

/-- `tweets[id]`: keyed lookup in the collection. -/
def lookupId (tweets : List Tweet) (id : Nat) : Option Tweet :=
  tweets.find? (fun t => t.templateId == id)

/-- `tweets.map(t => t.tweeted).reduce((sum, val) => sum + val, 0)`:
the total of the tweeted counts over the whole collection. -/
def totalTweeted (tweets : List Tweet) : Nat :=
  (tweets.map (fun t => t.tweeted)).foldl (fun sum val => sum + val) 0

/-- One entry of the `weights` array of `randomTweet`. -/
structure WeightEntry where
  template : Nat
  weight : ℚ
deriving DecidableEq, Repr

/-- The `total` used by `randomTweet` after the `total === 0` edge-case bump
to 1.  It is the total over the whole collection, disabled entries
included. -/
def codeTotal (tweets : List Tweet) : ℚ :=
  if totalTweeted tweets = 0 then 1 else (totalTweeted tweets : ℚ)

/-- The `weights` array: enabled entries only, each carrying
`(total - tweet.tweeted) / total` (the `map` followed by `filter(x => x)`
is a `filterMap`). -/
def codeWeights (tweets : List Tweet) : List WeightEntry :=
  tweets.filterMap (fun t =>
    if t.enabled then
      some ⟨t.templateId, (codeTotal tweets - (t.tweeted : ℚ)) / codeTotal tweets⟩
    else none)

/-- `Math.floor(100 * tweet.weight)`: the number of copies of a candidate
pushed into the selection pool. -/
def copies (w : WeightEntry) : Nat := (⌊100 * w.weight⌋).toNat

/-- The `selection` array: each candidate id replicated `copies` times. -/
def buildSelection (ws : List WeightEntry) : List Nat :=
  (ws.map (fun w => List.replicate (copies w) w.template)).flatten

/-- `randomTweet`: weighted selection.  `q` models `Math.random()`.
Returns `none` where the JS function returns `null`. -/
def randomTweet (q : ℚ) (tweets : List Tweet) : Option Tweet :=
  let weights := codeWeights tweets
  if weights.length = 1 then
    weights.head?.bind (fun w => lookupId tweets w.template)
  else
    let selection := buildSelection weights
    if selection.length = 0 then none
    else (selection[(⌊q * (selection.length : ℚ)⌋).toNat]?).bind (lookupId tweets)

/-- A recent post of the user timeline; the gate reads only its `source`
(client provenance) string. -/
structure RecentPost where
  source : String
deriving DecidableEq, Repr

/-- `x.includes(pat)` on JS strings: substring containment. -/
def includesStr (s pat : String) : Bool := decide (pat.data <:+: s.data)

/-- The provenance test of `checkForNaturalTweets`: a post counts as
human-originated exactly when its source includes `"Twitter for iPhone"`;
posts sent through this automation's own path carry a different source. -/
def naturalSource (s : String) : Bool := includesStr s "Twitter for iPhone"

/-- The Activity Gate: `okayToPost` is true exactly when every inspected
post is natural (`tweets.data.length === naturalPosts.length`). -/
def checkForNaturalTweets (posts : List RecentPost) : Bool :=
  decide (((posts.map (fun p => p.source)).filter naturalSource).length = posts.length)

/-! ## The pipeline orchestrator (`exports.handler`)

External collaborators are modelled by their results, carried in a
`RunInput`; the side effects the run performs are recorded in an explicit
trace of `Effect`s, and the completion callback invocations appear in that
trace (`callbackErr` / `callbackOk`). -/

/-- The Twitter response 'resp' part consumed by `processSentTweet`. -/
structure PostResponse where
  statusCode : Nat
  statusMessage : String
  date : String
deriving DecidableEq, Repr

/-- One entry of `data.data.errors` of a failed Twitter post. -/
structure TweetErrorItem where
  code : Nat
  message : String
deriving DecidableEq, Repr

/-- The resolved value of the `twitter.post` promise, as read by
`processSentTweet` and `updateHistory`. -/
structure SendResult where
  resp : PostResponse
  errors : List TweetErrorItem
  idStr : String
  text : String
  createdAt : String
  screenName : String
  userIdStr : String
deriving DecidableEq, Repr

/-- One observable side effect of a run.  `ok` records whether the
underlying best-effort collaborator call succeeded. -/
inductive Effect where
  | errorRecordPut (templateId : Nat) (slug : String) (status : String) (ok : Bool)
  | snsPublish (subject : String) (ok : Bool)
  | historyPut (templateId : Nat)
  | logError (msg : String)
  | callbackErr (msg : String)
  | callbackOk (msg : String)
deriving DecidableEq, Repr

/-- The results the external collaborators hand to one run:
`Except.error` models a rejected promise of that collaborator. -/
structure RunInput where
  templates : Except String (List (List TemplateRecord))
  history : Except String (List (List HistoryRecord))
  credentials : Except String Unit
  recent : Except String (List RecentPost)
  send : Except String SendResult
  historyPutOk : Except String Unit
  snsPublishOk : Except String Unit
  errorsPutOk : Except String Unit
  errorSnsPublishOk : Except String Unit
  q : ℚ

/-- How the promise chain of `handler` terminates before the final
`catch`: resolved after a post, resolved after a skip, or rejected. -/
inductive StepResult where
  | ok (slug : String)
  | skipped
  | err (msg : String)
deriving DecidableEq, Repr

/-- The terminal outcome of a run. -/
inductive RunOutcome where
  | posted
  | skipped
  | failed
deriving DecidableEq, Repr

/-- Subject (and success message) built from a slug: `sendToSns` and
`successMessage` both use `"Tweeted about blog: " + slug`. -/
def successSubject (slug : String) : String := "Tweeted about blog: " ++ slug

/-- Subject of `errorToSns`. -/
def failureSubject (slug : String) : String := "ERROR tweeting about blog: " ++ slug

/-- Subject of `sendSkippedToSns`. -/
def skipSubject : String := "Skipped automated blog tweet"

/-- The single error string `errorHandler` hands to the completion
callback. -/
def fixedCallbackError : String := "Error tweeting about blog"

/-- The `"" + status + " " + message` status string of an error record. -/
def statusString (resp : PostResponse) : String :=
  toString resp.statusCode ++ " " ++ resp.statusMessage

/-- Effects of the non-200 branch of `processSentTweet`: `updateErrors`
writes one error record and `errorToSns` publishes one failure
notification; each logs (and swallows) its own failure. -/
def postFailureEffects (tweet : Tweet) (sr : SendResult)
    (errorsPutOk errorSnsPublishOk : Except String Unit) : List Effect :=
  (Effect.errorRecordPut tweet.templateId tweet.slug (statusString sr.resp)
      (errorsPutOk matches .ok _) ::
    match errorsPutOk with
    | .ok _ => []
    | .error e => [Effect.logError e]) ++
  (Effect.snsPublish (failureSubject tweet.slug) (errorSnsPublishOk matches .ok _) ::
    match errorSnsPublishOk with
    | .ok _ => []
    | .error e => [Effect.logError e])

/-- The promise chain of `handler` up to (not including) the final
`catch`: returns the effect trace and how the chain terminated. -/
def runChain (inp : RunInput) : List Effect × StepResult :=
  match inp.templates with
  | .error e => ([], .err e)
  | .ok tpages =>
  match inp.history with
  | .error e => ([], .err e)
  | .ok hpages =>
  match buildPopulation tpages hpages with
  | none => ([], .err "TypeError: Cannot read properties of undefined (reading tweeted)")
  | some enriched =>
  match randomTweet inp.q enriched with
  | none => ([], .err "Could not find an active tweet template")
  | some tweet =>
  match inp.credentials with
  | .error e => ([], .err e)
  | .ok _ =>
  match inp.recent with
  | .error e => ([], .err e)
  | .ok posts =>
  if checkForNaturalTweets posts then
    match inp.send with
    | .error e => ([], .err e)
    | .ok sr =>
      if sr.resp.statusCode ≠ 200 then
        (postFailureEffects tweet sr inp.errorsPutOk inp.errorSnsPublishOk,
          .err (statusString sr.resp))
      else
        match inp.historyPutOk with
        | .error e => ([.historyPut tweet.templateId], .err e)
        | .ok _ =>
        match inp.snsPublishOk with
        | .error e =>
            ([.historyPut tweet.templateId, .snsPublish (successSubject tweet.slug) false],
              .err e)
        | .ok _ =>
            ([.historyPut tweet.templateId, .snsPublish (successSubject tweet.slug) true,
              .callbackOk (successSubject tweet.slug)],
              .ok tweet.slug)
  else
    match inp.snsPublishOk with
    | .error e => ([.snsPublish skipSubject false], .err e)
    | .ok _ => ([.snsPublish skipSubject true], .skipped)

/-- `exports.handler`: the chain followed by `.catch(errorHandler)`, which
logs the rejection and invokes the callback with the fixed error string.
Note the resolved skip branch ends the chain without any callback. -/
def handler (inp : RunInput) : List Effect × RunOutcome :=
  match runChain inp with
  | (effs, .ok _) => (effs, .posted)
  | (effs, .skipped) => (effs, .skipped)
  | (effs, .err e) =>
      (effs ++ [.logError e, .callbackErr fixedCallbackError], .failed)

/-- The completion-callback invocations of an effect trace. -/
def callbackEffects (effs : List Effect) : List Effect :=
  effs.filter (fun e =>
    match e with
    | .callbackErr _ => true
    | .callbackOk _ => true
    | _ => false)

/-- The error-record writes of an effect trace. -/
def errorRecordPuts (effs : List Effect) : List Effect :=
  effs.filter (fun e => e matches .errorRecordPut ..)

/-- The history appends of an effect trace. -/
def historyPuts (effs : List Effect) : List Effect :=
  effs.filter (fun e => e matches .historyPut _)

/-- The notification publishes of an effect trace carrying a given
subject. -/
def snsPublishesWith (subj : String) (effs : List Effect) : List Effect :=
  effs.filter (fun e =>
    match e with
    | .snsPublish s _ => s == subj
    | _ => false)

/-! ## Comparison definitions written from the claims' words

These definitions are NOT translations of the source; they state what the
claims say, so that the source-derived definitions above can be proved
equal to them or refuted. -/

/-- Claim C3's `total`: the sum of usage counts over the enabled templates
only, with a zero total treated as 1. -/
def claimTotalC3 (tweets : List Tweet) : ℚ :=
  let enabledSum : Nat :=
    ((tweets.filter (fun t => t.enabled)).map (fun t => t.tweeted)).foldl
      (fun sum val => sum + val) 0
  if enabledSum = 0 then 1 else (enabledSum : ℚ)

/-- Claim C3's weight table: each enabled template weighted by
`(total - usageCount) / total` with `total` as `claimTotalC3`. -/
def claimWeightsC3 (tweets : List Tweet) : List WeightEntry :=
  (tweets.filter (fun t => t.enabled)).map (fun t =>
    ⟨t.templateId, (claimTotalC3 tweets - (t.tweeted : ℚ)) / claimTotalC3 tweets⟩)

/-- The enriched population as the claims describe it: every template's
usage count raised by the number of history entries referencing its
identifier. -/
def specCounts (tweets : List Tweet) (hist : List HistoryRecord) : List Tweet :=
  tweets.map (fun t =>
    { t with tweeted := t.tweeted + (hist.map (fun r => r.templateId)).count t.templateId })

/-! ## Concrete runs used as failing inputs and witnesses -/

/-- A run in which every collaborator succeeds but the most recent post is
automation-originated, so the Activity Gate returns false. -/
def skipRunInput : RunInput :=
  { templates := .ok [[⟨1, "a post", "first-post", true⟩]]
    history := .ok [[]]
    credentials := .ok ()
    recent := .ok [⟨"blog-tweet-lambda"⟩]
    send := .ok ⟨⟨200, "OK", "d"⟩, [], "9", "txt", "now", "u", "1"⟩
    historyPutOk := .ok ()
    snsPublishOk := .ok ()
    errorsPutOk := .ok ()
    errorSnsPublishOk := .ok ()
    q := 0 }

/-- A run in which the gate passes but the posting collaborator reports a
non-success status (403). -/
def postFailureRunInput : RunInput :=
  { templates := .ok [[⟨1, "a post", "first-post", true⟩]]
    history := .ok [[⟨1⟩]]
    credentials := .ok ()
    recent := .ok [⟨"Twitter for iPhone"⟩]
    send := .ok ⟨⟨403, "Forbidden", "d"⟩, [⟨187, "duplicate"⟩], "9", "txt", "now", "u", "1"⟩
    historyPutOk := .ok ()
    snsPublishOk := .ok ()
    errorsPutOk := .ok ()
    errorSnsPublishOk := .ok ()
    q := 0 }

/-- A run in which the first template-table scan is rejected. -/
def fetchFailureRunInput : RunInput :=
  { templates := .error "network unreachable"
    history := .ok [[]]
    credentials := .ok ()
    recent := .ok []
    send := .ok ⟨⟨200, "OK", "d"⟩, [], "9", "txt", "now", "u", "1"⟩
    historyPutOk := .ok ()
    snsPublishOk := .ok ()
    errorsPutOk := .ok ()
    errorSnsPublishOk := .ok ()
    q := 0 }

/-! ## Helper lemmas -/

theorem filterMap_guard {α β : Type} (p : α → Bool) (f : α → β) (l : List α) :
    l.filterMap (fun a => if p a then some (f a) else none) = (l.filter p).map f := by
  induction l with
  | nil => rfl
  | cons x xs ih =>
    by_cases h : p x <;> simp [List.filterMap_cons, List.filter_cons, h, ih]

theorem codeWeights_eq (tweets : List Tweet) :
    codeWeights tweets = (tweets.filter (fun t => t.enabled)).map (fun t =>
      ⟨t.templateId, (codeTotal tweets - (t.tweeted : ℚ)) / codeTotal tweets⟩) :=
  filterMap_guard _ _ _

theorem lookupId_mem {tweets : List Tweet} {id : Nat} {t : Tweet}
    (h : lookupId tweets id = some t) : t ∈ tweets ∧ t.templateId = id := by
  refine ⟨List.mem_of_find?_eq_some h, ?_⟩
  have hp := List.find?_some h
  simpa using hp

theorem lookupId_isSome {tweets : List Tweet} {id : Nat} {u : Tweet}
    (hu : u ∈ tweets) (hid : u.templateId = id) : (lookupId tweets id).isSome := by
  rw [lookupId, List.find?_isSome]
  exact ⟨u, hu, by simp [hid]⟩

theorem lookupId_self {tweets : List Tweet}
    (hnd : (tweets.map (fun t => t.templateId)).Nodup)
    {u : Tweet} (hu : u ∈ tweets) : lookupId tweets u.templateId = some u := by
  obtain ⟨t, ht⟩ := Option.isSome_iff_exists.mp (lookupId_isSome hu rfl)
  obtain ⟨hmem, hid⟩ := lookupId_mem ht
  rw [ht, List.inj_on_of_nodup_map hnd hmem hu hid]

theorem foldl_add_eq_sum (l : List Nat) : ∀ a : Nat, l.foldl (fun s v => s + v) a = a + l.sum := by
  induction l with
  | nil => intro a; simp
  | cons x xs ih => intro a; rw [List.foldl_cons, ih, List.sum_cons]; omega

theorem totalTweeted_eq_sum (tweets : List Tweet) :
    totalTweeted tweets = (tweets.map (fun t => t.tweeted)).sum := by
  rw [totalTweeted, foldl_add_eq_sum]; omega

theorem tweeted_le_totalTweeted {tweets : List Tweet} {t : Tweet} (ht : t ∈ tweets) :
    t.tweeted ≤ totalTweeted tweets := by
  rw [totalTweeted_eq_sum]
  exact List.single_le_sum (fun x _ => Nat.zero_le x) _ (List.mem_map_of_mem _ ht)

theorem codeTotal_pos (tweets : List Tweet) : 0 < codeTotal tweets := by
  rw [codeTotal]; split
  · norm_num
  · exact_mod_cast Nat.pos_of_ne_zero (by assumption)

theorem tweeted_le_codeTotal {tweets : List Tweet} {t : Tweet} (ht : t ∈ tweets) :
    (t.tweeted : ℚ) ≤ codeTotal tweets := by
  have h := tweeted_le_totalTweeted ht
  rw [codeTotal]; split
  · next h0 =>
      have : t.tweeted = 0 := by omega
      simp [this]
  · exact_mod_cast h

theorem bumpTweeted_ids {id : Nat} {l : List Tweet} :
    ∀ {l' : List Tweet}, bumpTweeted id l = some l' →
    l'.map (fun t => t.templateId) = l.map (fun t => t.templateId) := by
  induction l with
  | nil => intro l' h; simp [bumpTweeted] at h
  | cons x xs ih =>
    intro l' h
    rw [bumpTweeted] at h
    split at h
    · cases h; simp
    · obtain ⟨ys, hys, hl⟩ := Option.map_eq_some'.mp h
      subst hl
      simp [ih hys]

theorem bumpTweeted_eq_none {id : Nat} {l : List Tweet} :
    bumpTweeted id l = none ↔ id ∉ l.map (fun t => t.templateId) := by
  induction l with
  | nil => simp [bumpTweeted]
  | cons x xs ih =>
    rw [bumpTweeted]
    by_cases hx : x.templateId = id
    · simp [hx]
    · simp only [if_neg hx, Option.map_eq_none', ih, List.map_cons, List.mem_cons]
      constructor
      · rintro hni (h | h)
        · exact hx h.symm
        · exact hni h
      · intro hni h
        exact hni (Or.inr h)

theorem bumpTweeted_char {id : Nat} {l : List Tweet}
    (hnd : (l.map (fun t => t.templateId)).Nodup)
    (hmem : id ∈ l.map (fun t => t.templateId)) :
    bumpTweeted id l = some (l.map (fun t =>
      if t.templateId = id then { t with tweeted := t.tweeted + 1 } else t)) := by
  induction l with
  | nil => simp at hmem
  | cons x xs ih =>
    rw [List.map_cons, List.nodup_cons] at hnd
    obtain ⟨hxnot, hndxs⟩ := hnd
    rw [bumpTweeted]
    by_cases hx : x.templateId = id
    · rw [if_pos hx]
      have hxs : xs.map (fun t =>
          if t.templateId = id then { t with tweeted := t.tweeted + 1 } else t) = xs := by
        have : ∀ t ∈ xs, (if t.templateId = id
            then { t with tweeted := t.tweeted + 1 } else t) = t := by
          intro t htm
          rw [if_neg]
          intro heq
          exact hxnot (hx ▸ heq ▸ List.mem_map_of_mem _ htm)
        rw [List.map_congr_left this, List.map_id']
      simp [hx, hxs]
    · rw [if_neg hx]
      have hmem' : id ∈ xs.map (fun t => t.templateId) := by
        rcases List.mem_cons.mp hmem with h | h
        · exact absurd h.symm hx
        · exact h
      rw [ih hndxs hmem']
      simp [hx]

theorem specCounts_nil (tweets : List Tweet) : specCounts tweets [] = tweets := by
  simp [specCounts]

theorem specCounts_cons (tweets : List Tweet) (r : HistoryRecord) (rs : List HistoryRecord) :
    specCounts tweets (r :: rs) =
      specCounts (tweets.map (fun t =>
        if t.templateId = r.templateId then { t with tweeted := t.tweeted + 1 } else t)) rs := by
  rw [specCounts, specCounts, List.map_map]
  apply List.map_congr_left
  intro t _
  obtain ⟨tid, tm, ts, te, tw⟩ := t
  by_cases h : tid = r.templateId <;>
    simp [Function.comp, h, List.count_cons] <;> omega

theorem getHistoryItems_char {hist : List HistoryRecord} : ∀ {tweets : List Tweet},
    (tweets.map (fun t => t.templateId)).Nodup →
    (∀ r ∈ hist, r.templateId ∈ tweets.map (fun t => t.templateId)) →
    getHistoryItems tweets hist = some (specCounts tweets hist) := by
  induction hist with
  | nil => intro tweets _ _; rw [getHistoryItems, specCounts_nil]
  | cons r rs ih =>
    intro tweets hnd hall
    rw [getHistoryItems]
    simp only [bumpTweeted_char hnd (hall r (by simp))]
    have hids : (tweets.map (fun t =>
        if t.templateId = r.templateId then { t with tweeted := t.tweeted + 1 } else t)).map
          (fun t => t.templateId) = tweets.map (fun t => t.templateId) := by
      rw [List.map_map]
      apply List.map_congr_left
      intro t _
      by_cases h : t.templateId = r.templateId <;> simp [Function.comp, h]
    rw [ih (by rw [hids]; exact hnd)
      (fun x hx => by rw [hids]; exact hall x (List.mem_cons_of_mem _ hx)),
      specCounts_cons]

theorem getHistoryItems_of_unknown {hist : List HistoryRecord} : ∀ {tweets : List Tweet},
    (∃ r ∈ hist, r.templateId ∉ tweets.map (fun t => t.templateId)) →
    getHistoryItems tweets hist = none := by
  induction hist with
  | nil => rintro tweets ⟨b, hb, _⟩; simp at hb
  | cons r rs ih =>
    rintro tweets ⟨b, hb, hbad⟩
    rw [getHistoryItems]
    by_cases hk : r.templateId ∈ tweets.map (fun t => t.templateId)
    · have hne : bumpTweeted r.templateId tweets ≠ none := by
        rw [Ne, bumpTweeted_eq_none]
        simpa using hk
      obtain ⟨l2, hl2⟩ := Option.ne_none_iff_exists'.mp hne
      simp only [hl2]
      apply ih
      have hbrs : b ∈ rs := by
        rcases List.mem_cons.mp hb with rfl | h
        · exact absurd hk hbad
        · exact h
      exact ⟨b, hbrs, by rw [bumpTweeted_ids hl2]; exact hbad⟩
    · simp only [bumpTweeted_eq_none.mpr hk]

/-! ## Claim C2 -/

/-- **C2** (counterexample): a history entry referencing template id 2
while the template set holds only id 1 makes the enrichment throw
(modelled as `none`): the build crashes instead of ignoring the entry. -/
theorem historyUnknownTemplateCrashes :
    getHistoryItems [⟨1, "m", "s", true, 0⟩] [⟨2⟩] = none := by decide

/-- **C2** (amended): the build yields the enriched population with usage
counts exactly the number of referencing history entries precisely when
every history entry references a present template identifier; an entry
referencing an absent identifier crashes the build (the run fails) rather
than being ignored. -/
theorem populationBuildSucceedsIffAllKnown (tweets : List Tweet) (hist : List HistoryRecord)
    (hnd : (tweets.map (fun t => t.templateId)).Nodup) :
    getHistoryItems tweets hist = some (specCounts tweets hist) ↔
      ∀ r ∈ hist, r.templateId ∈ tweets.map (fun t => t.templateId) := by
  constructor
  · intro h
    by_contra hnot
    push_neg at hnot
    rw [getHistoryItems_of_unknown hnot] at h
    exact Option.noConfusion h
  · exact getHistoryItems_char hnd

/-- Witness for C2's amended theorem at a concrete population and
history. -/
theorem populationBuildSucceedsIffAllKnown_witness :
    (([⟨1, "m", "s", true, 0⟩, ⟨2, "n", "u", false, 1⟩] : List Tweet).map
        (fun t => t.templateId)).Nodup ∧
    (getHistoryItems [⟨1, "m", "s", true, 0⟩, ⟨2, "n", "u", false, 1⟩] [⟨1⟩, ⟨2⟩, ⟨1⟩] =
        some (specCounts [⟨1, "m", "s", true, 0⟩, ⟨2, "n", "u", false, 1⟩] [⟨1⟩, ⟨2⟩, ⟨1⟩]) ↔
      ∀ r ∈ ([⟨1⟩, ⟨2⟩, ⟨1⟩] : List HistoryRecord),
        r.templateId ∈ ([⟨1, "m", "s", true, 0⟩, ⟨2, "n", "u", false, 1⟩] : List Tweet).map
          (fun t => t.templateId)) :=
  ⟨by decide, populationBuildSucceedsIffAllKnown _ _ (by decide)⟩

/-! ## Claim C4 -/

/-- **C4**: for every list of at most 5 recent posts, the Activity Gate
returns true iff every post is human-originated (its source carries the
human-client provenance rather than the automation's); hence one
automation-originated post forces false, and with fewer than 5 posts the
gate is true whenever all present are human-originated (vacuously for the
empty list). -/
theorem activityGateIffAllHuman (posts : List RecentPost) (hlen : posts.length ≤ 5) :
    checkForNaturalTweets posts = true ↔ ∀ p ∈ posts, naturalSource p.source = true := by
  rw [checkForNaturalTweets, decide_eq_true_iff]
  rw [show posts.length = (posts.map (fun p => p.source)).length by simp]
  rw [List.filter_length_eq_length]
  simp

/-- Witness for C4 at a concrete two-post timeline. -/
theorem activityGateIffAllHuman_witness :
    ([⟨"Twitter for iPhone"⟩, ⟨"Twitter Web App"⟩] : List RecentPost).length ≤ 5 ∧
    (checkForNaturalTweets [⟨"Twitter for iPhone"⟩, ⟨"Twitter Web App"⟩] = true ↔
      ∀ p ∈ ([⟨"Twitter for iPhone"⟩, ⟨"Twitter Web App"⟩] : List RecentPost),
        naturalSource p.source = true) :=
  ⟨by decide, activityGateIffAllHuman _ (by decide)⟩

/-! ## Claim C1 -/

/-- **C1** (the code violates the claim): in `skipRunInput` every
collaborator succeeds and the Activity Gate returns false; the run
terminates as skipped with one skip notification, but the completion
callback is never invoked — zero invocations, not exactly one, because the
skip branch of `handler` has no callback continuation. -/
theorem skipRunInvokesNoCallback :
    handler skipRunInput = ([.snsPublish skipSubject true], .skipped) ∧
      callbackEffects (handler skipRunInput).1 = [] := by decide

/-! ## Selector lemmas -/

theorem mem_codeWeights {tweets : List Tweet} {w : WeightEntry}
    (h : w ∈ codeWeights tweets) :
    ∃ u ∈ tweets, u.enabled = true ∧ w.template = u.templateId := by
  rw [codeWeights_eq, List.mem_map] at h
  obtain ⟨u, hu, rfl⟩ := h
  obtain ⟨hmem, hen⟩ := List.mem_filter.mp hu
  exact ⟨u, hmem, hen, rfl⟩

theorem mem_buildSelection {ws : List WeightEntry} {id : Nat}
    (h : id ∈ buildSelection ws) : ∃ w ∈ ws, w.template = id := by
  rw [buildSelection, List.mem_flatten] at h
  obtain ⟨l, hl, hid⟩ := h
  rw [List.mem_map] at hl
  obtain ⟨w, hw, rfl⟩ := hl
  exact ⟨w, hw, (List.eq_of_mem_replicate hid).symm⟩

theorem enabledSum_le_totalTweeted (tweets : List Tweet) :
    ((tweets.filter (fun t => t.enabled)).map (fun t => t.tweeted)).sum ≤
      totalTweeted tweets := by
  rw [totalTweeted_eq_sum]
  exact List.Sublist.sum_le_sum ((List.filter_sublist tweets).map (fun t => t.tweeted))
    (fun _ _ => Nat.zero_le _)

/-- With at least two enabled candidates the draw pool is never empty:
their usage counts cannot both exceed 99% of a total that includes both. -/
theorem selection_nonempty {tweets : List Tweet}
    (hlen2 : 2 ≤ (tweets.filter (fun t => t.enabled)).length) :
    buildSelection (codeWeights tweets) ≠ [] := by
  intro hemp
  have hzero : ∀ w ∈ codeWeights tweets, copies w = 0 := by
    intro w hw
    have := List.flatten_eq_nil_iff.mp hemp (List.replicate (copies w) w.template)
      (List.mem_map_of_mem _ hw)
    simpa using this
  obtain ⟨t1, t2, rest, hfil⟩ :
      ∃ t1 t2 rest, tweets.filter (fun t => t.enabled) = t1 :: t2 :: rest := by
    rcases hf : tweets.filter (fun t => t.enabled) with _ | ⟨a, _ | ⟨b, l⟩⟩
    · rw [hf] at hlen2; simp at hlen2
    · rw [hf] at hlen2; simp at hlen2
    · exact ⟨a, b, l, hf⟩
  have h1mem : t1 ∈ tweets ∧ t1.enabled = true := by
    have : t1 ∈ tweets.filter (fun t => t.enabled) := by rw [hfil]; simp
    exact ⟨(List.mem_filter.mp this).1, (List.mem_filter.mp this).2⟩
  have h2mem : t2 ∈ tweets ∧ t2.enabled = true := by
    have : t2 ∈ tweets.filter (fun t => t.enabled) := by rw [hfil]; simp
    exact ⟨(List.mem_filter.mp this).1, (List.mem_filter.mp this).2⟩
  have hw1 : (⟨t1.templateId, (codeTotal tweets - (t1.tweeted : ℚ)) / codeTotal tweets⟩ :
      WeightEntry) ∈ codeWeights tweets := by
    rw [codeWeights_eq, hfil]; simp
  have hw2 : (⟨t2.templateId, (codeTotal tweets - (t2.tweeted : ℚ)) / codeTotal tweets⟩ :
      WeightEntry) ∈ codeWeights tweets := by
    rw [codeWeights_eq, hfil]; simp
  have hsum : t1.tweeted + t2.tweeted ≤ totalTweeted tweets := by
    have h := enabledSum_le_totalTweeted tweets
    rw [hfil] at h
    simp only [List.map_cons, List.sum_cons] at h
    omega
  by_cases hT0 : totalTweeted tweets = 0
  · -- all counts are zero, each enabled weight is 1, copies = 100 ≠ 0
    have ht1z : t1.tweeted = 0 := by
      have := tweeted_le_totalTweeted h1mem.1
      omega
    have hc : codeTotal tweets = 1 := by rw [codeTotal, if_pos hT0]
    have := hzero _ hw1
    rw [copies] at this
    simp only [hc, ht1z] at this
    norm_num at this
  · -- a positive total cannot be 99%-exceeded by both candidates
    have hc : codeTotal tweets = (totalTweeted tweets : ℚ) := by
      rw [codeTotal, if_neg hT0]
    have hTpos : (0 : ℚ) < codeTotal tweets := codeTotal_pos tweets
    have key : ∀ t : Tweet, t ∈ tweets →
        copies ⟨t.templateId, (codeTotal tweets - (t.tweeted : ℚ)) / codeTotal tweets⟩ = 0 →
        100 * (totalTweeted tweets - t.tweeted) < totalTweeted tweets := by
      intro t htm hcop
      rw [copies] at hcop
      replace hcop : ⌊100 * ((codeTotal tweets - (t.tweeted : ℚ)) / codeTotal tweets)⌋ ≤ 0 :=
        Int.toNat_eq_zero.mp hcop
      have hlt : 100 * ((codeTotal tweets - (t.tweeted : ℚ)) / codeTotal tweets) < 1 := by
        by_contra hge
        push_neg at hge
        have : (1 : ℤ) ≤ ⌊100 * ((codeTotal tweets - (t.tweeted : ℚ)) / codeTotal tweets)⌋ :=
          Int.le_floor.mpr (by exact_mod_cast hge)
        omega
      rw [← mul_div_assoc] at hlt
      have hlt2 : 100 * (codeTotal tweets - (t.tweeted : ℚ)) < codeTotal tweets :=
        (div_lt_one hTpos).mp hlt
      have hle : t.tweeted ≤ totalTweeted tweets := tweeted_le_totalTweeted htm
      rw [hc, ← Nat.cast_sub hle] at hlt2
      exact_mod_cast hlt2
    have k1 := key t1 h1mem.1 (hzero _ hw1)
    have k2 := key t2 h2mem.1 (hzero _ hw2)
    omega

/-- With any enabled candidate present and `0 ≤ q < 1`, the selector
returns a template. -/
theorem randomTweet_isSome {q : ℚ} {tweets : List Tweet} (h0 : 0 ≤ q) (h1 : q < 1)
    (hne : tweets.filter (fun t => t.enabled) ≠ []) :
    (randomTweet q tweets).isSome := by
  simp only [randomTweet]
  by_cases hlen : (codeWeights tweets).length = 1
  · rw [if_pos hlen]
    obtain ⟨w, hw⟩ : ∃ w, (codeWeights tweets).head? = some w := by
      cases hcw : codeWeights tweets with
      | nil => rw [hcw] at hlen; simp at hlen
      | cons a l => exact ⟨a, rfl⟩
    rw [hw]
    obtain ⟨u, hu, _, hid⟩ := mem_codeWeights (List.mem_of_mem_head? hw)
    obtain ⟨t, htt⟩ := Option.isSome_iff_exists.mp (lookupId_isSome hu hid.symm)
    simp [htt]
  · rw [if_neg hlen]
    have hlen2 : 2 ≤ (tweets.filter (fun t => t.enabled)).length := by
      have hne' : (tweets.filter (fun t => t.enabled)).length ≠ 0 := by
        intro h; exact hne (List.length_eq_zero.mp h)
      have hne1 : (tweets.filter (fun t => t.enabled)).length ≠ 1 := by
        intro h
        apply hlen
        rw [codeWeights_eq, List.length_map, h]
      omega
    have hsel := selection_nonempty hlen2
    have hsellen : (buildSelection (codeWeights tweets)).length ≠ 0 := by
      intro h; exact hsel (List.length_eq_zero.mp h)
    rw [if_neg hsellen]
    have hlenpos : 0 < (buildSelection (codeWeights tweets)).length :=
      Nat.pos_of_ne_zero hsellen
    have hidx : (⌊q * ((buildSelection (codeWeights tweets)).length : ℚ)⌋).toNat <
        (buildSelection (codeWeights tweets)).length := by
      have hflt : ⌊q * ((buildSelection (codeWeights tweets)).length : ℚ)⌋ <
          ((buildSelection (codeWeights tweets)).length : ℤ) := by
        rw [Int.floor_lt]
        push_cast
        calc q * ((buildSelection (codeWeights tweets)).length : ℚ) <
            1 * ((buildSelection (codeWeights tweets)).length : ℚ) := by
              apply mul_lt_mul_of_pos_right h1
              exact_mod_cast hlenpos
          _ = ((buildSelection (codeWeights tweets)).length : ℚ) := one_mul _
      omega
    rw [List.getElem?_eq_getElem hidx]
    have hidmem : (buildSelection (codeWeights tweets))[(⌊q *
        ((buildSelection (codeWeights tweets)).length : ℚ)⌋).toNat] ∈
        buildSelection (codeWeights tweets) := List.getElem_mem hidx
    obtain ⟨w, hw, hwid⟩ := mem_buildSelection hidmem
    obtain ⟨u, hu, _, huid⟩ := mem_codeWeights hw
    obtain ⟨t, htt⟩ := Option.isSome_iff_exists.mp
      (lookupId_isSome hu (huid.symm.trans hwid))
    simp [htt]

/-! ## Claim C7 -/

/-- **C7** (counterexample): for the population whose only template is
disabled — a population with zero enabled templates, which is also the
only way the draw pool comes out empty — the pipeline rejects with the
single error "Could not find an active tweet template"; neither of the two
distinguishable messages the claim names occurs. -/
theorem selectionFailureSingleMessage :
    runChain { templates := .ok [[⟨1, "m", "s", false⟩]]
               history := .ok [[]]
               credentials := .ok ()
               recent := .ok []
               send := .ok ⟨⟨200, "OK", "d"⟩, [], "9", "t", "c", "u", "1"⟩
               historyPutOk := .ok ()
               snsPublishOk := .ok ()
               errorsPutOk := .ok ()
               errorSnsPublishOk := .ok ()
               q := 0 } =
      ([], .err "Could not find an active tweet template") ∧
    ("Could not find an active tweet template" ≠ "no active template" ∧
      "Could not find an active tweet template" ≠ "no selectable template") := by decide

/-- **C7** (amended): selection has a single failure outcome, not two: for
`0 ≤ q < 1` the selector fails exactly when the population has no enabled
template (with two or more enabled candidates the draw pool is never
empty, and with exactly one the candidate is taken directly), and the
pipeline reports that failure with the single fatal message
"Could not find an active tweet template". -/
theorem selectorFailsIffNoEnabled (q : ℚ) (tweets : List Tweet)
    (h0 : 0 ≤ q) (h1 : q < 1) :
    randomTweet q tweets = none ↔ tweets.filter (fun t => t.enabled) = [] := by
  constructor
  · intro h
    by_contra hne
    have hs := randomTweet_isSome h0 h1 hne
    rw [h] at hs
    simp at hs
  · intro hfil
    have hcw : codeWeights tweets = [] := by
      rw [codeWeights_eq, hfil]
      rfl
    simp [randomTweet, hcw, buildSelection]

/-- Witness for C7's amended theorem at a concrete all-disabled
population. -/
theorem selectorFailsIffNoEnabled_witness :
    (0 : ℚ) ≤ 0 ∧ (0 : ℚ) < 1 ∧
    (randomTweet 0 [⟨1, "m", "s", false, 3⟩] = none ↔
      ([⟨1, "m", "s", false, 3⟩] : List Tweet).filter (fun t => t.enabled) = []) :=
  ⟨le_refl 0, zero_lt_one, selectorFailsIffNoEnabled 0 _ (le_refl 0) zero_lt_one⟩

/-! ## Claim C5 -/

/-- **C5**: a population with exactly one enabled template (whatever its
usage count, and whatever disabled templates are present) always yields
that template: the selector short-circuits the weighted draw. -/
theorem singleEnabledAlwaysSelected (q : ℚ) (tweets : List Tweet) (t : Tweet)
    (hnd : (tweets.map (fun u => u.templateId)).Nodup)
    (hone : tweets.filter (fun u => u.enabled) = [t]) :
    randomTweet q tweets = some t := by
  have hw : codeWeights tweets =
      [⟨t.templateId, (codeTotal tweets - (t.tweeted : ℚ)) / codeTotal tweets⟩] := by
    rw [codeWeights_eq, hone]
    rfl
  have htmem : t ∈ tweets := by
    have : t ∈ tweets.filter (fun u => u.enabled) := by rw [hone]; simp
    exact (List.mem_filter.mp this).1
  simp only [randomTweet, hw]
  simp [lookupId_self hnd htmem]

/-- Witness for C5 with one enabled template whose usage count equals the
whole total, next to a disabled template. -/
theorem singleEnabledAlwaysSelected_witness :
    (([⟨1, "m", "s", false, 9⟩, ⟨2, "n", "u", true, 9⟩] : List Tweet).map
        (fun u => u.templateId)).Nodup ∧
    ([⟨1, "m", "s", false, 9⟩, ⟨2, "n", "u", true, 9⟩] : List Tweet).filter
        (fun u => u.enabled) = [⟨2, "n", "u", true, 9⟩] ∧
    randomTweet 0 [⟨1, "m", "s", false, 9⟩, ⟨2, "n", "u", true, 9⟩] =
      some ⟨2, "n", "u", true, 9⟩ :=
  ⟨by decide, by decide, singleEnabledAlwaysSelected 0 _ _ (by decide) (by decide)⟩

/-! ## Claim C9 -/

/-- **C9**: whenever the selector returns a template, that template is a
member of the input population and its enabled flag is set; a disabled
template is never selected. -/
theorem selectedMemberIsEnabled (q : ℚ) (tweets : List Tweet) (t : Tweet)
    (hnd : (tweets.map (fun u => u.templateId)).Nodup)
    (h : randomTweet q tweets = some t) : t ∈ tweets ∧ t.enabled = true := by
  simp only [randomTweet] at h
  split at h
  · obtain ⟨w, hw, hlk⟩ := Option.bind_eq_some.mp h
    obtain ⟨u, hu, huen, huid⟩ := mem_codeWeights (List.mem_of_mem_head? hw)
    obtain ⟨htmem, htid⟩ := lookupId_mem hlk
    have hteq : t = u := List.inj_on_of_nodup_map hnd htmem hu (by rw [htid, huid])
    exact ⟨htmem, hteq ▸ huen⟩
  · split at h
    · exact Option.noConfusion h
    · obtain ⟨id0, hid0, hlk⟩ := Option.bind_eq_some.mp h
      obtain ⟨hlt, heq⟩ := List.getElem?_eq_some.mp hid0
      obtain ⟨w, hw, hwid⟩ := mem_buildSelection (heq ▸ List.getElem_mem hlt)
      obtain ⟨u, hu, huen, huid⟩ := mem_codeWeights hw
      obtain ⟨htmem, htid⟩ := lookupId_mem hlk
      have hteq : t = u := List.inj_on_of_nodup_map hnd htmem hu
        (by rw [htid, ← hwid, huid])
      exact ⟨htmem, hteq ▸ huen⟩

/-- Witness for C9 at a singleton enabled population. -/
theorem selectedMemberIsEnabled_witness :
    (([⟨5, "m", "s", true, 3⟩] : List Tweet).map (fun u => u.templateId)).Nodup ∧
    randomTweet 0 [⟨5, "m", "s", true, 3⟩] = some ⟨5, "m", "s", true, 3⟩ ∧
    ((⟨5, "m", "s", true, 3⟩ : Tweet) ∈ ([⟨5, "m", "s", true, 3⟩] : List Tweet) ∧
      (⟨5, "m", "s", true, 3⟩ : Tweet).enabled = true) :=
  ⟨by decide, by decide, selectedMemberIsEnabled 0 _ _ (by decide) (by decide)⟩

/-! ## Claim C3 -/

/-- **C3** (counterexample): in a population holding a disabled template
with usage 3 and enabled templates with usages 1 and 0, the claim's
weights (total over enabled only: 1) are [0, 1], while the code's weights
(total over all templates: 4) are [3/4, 1] — the claim's table differs
from the code's. -/
theorem weightsCountDisabledUsage :
    claimWeightsC3 [⟨1, "m", "s", false, 3⟩, ⟨2, "m", "s", true, 1⟩, ⟨3, "m", "s", true, 0⟩] ≠
      codeWeights [⟨1, "m", "s", false, 3⟩, ⟨2, "m", "s", true, 1⟩, ⟨3, "m", "s", true, 0⟩] := by
  intro h
  have hcl : claimTotalC3
      [⟨1, "m", "s", false, 3⟩, ⟨2, "m", "s", true, 1⟩, ⟨3, "m", "s", true, 0⟩] = 1 := by
    norm_num [claimTotalC3, List.filter]
  have hco : codeTotal
      [⟨1, "m", "s", false, 3⟩, ⟨2, "m", "s", true, 1⟩, ⟨3, "m", "s", true, 0⟩] = 4 := by
    norm_num [codeTotal, totalTweeted]
  rw [claimWeightsC3, codeWeights_eq, hcl, hco] at h
  simp only [List.filter, List.map, List.cons.injEq, WeightEntry.mk.injEq] at h
  obtain ⟨⟨-, h1⟩, -⟩ := h
  norm_num at h1

/-- **C3** (amended): the selector's total is the sum of usage counts over
ALL templates of the population — disabled ones included — with a zero
total treated as 1; each enabled template receives the weight
`(total - usageCount) / total`, which lies in [0,1] and is 0 exactly when
the usage count equals that (bumped) total; disabled templates receive no
weight entry but do contribute their usage to the total. -/
theorem weightsFrequencyInverseOverAll (tweets : List Tweet) (t : Tweet)
    (ht : t ∈ tweets) (hen : t.enabled = true) :
    codeWeights tweets = (tweets.filter (fun u => u.enabled)).map (fun u =>
      (⟨u.templateId, (codeTotal tweets - (u.tweeted : ℚ)) / codeTotal tweets⟩ :
        WeightEntry)) ∧
    (⟨t.templateId, (codeTotal tweets - (t.tweeted : ℚ)) / codeTotal tweets⟩ :
        WeightEntry) ∈ codeWeights tweets ∧
    0 ≤ (codeTotal tweets - (t.tweeted : ℚ)) / codeTotal tweets ∧
    (codeTotal tweets - (t.tweeted : ℚ)) / codeTotal tweets ≤ 1 ∧
    ((codeTotal tweets - (t.tweeted : ℚ)) / codeTotal tweets = 0 ↔
      (t.tweeted : ℚ) = codeTotal tweets) := by
  have hTpos := codeTotal_pos tweets
  have hle := tweeted_le_codeTotal ht
  refine ⟨codeWeights_eq tweets, ?_, ?_, ?_, ?_⟩
  · rw [codeWeights_eq]
    exact List.mem_map_of_mem _ (List.mem_filter.mpr ⟨ht, hen⟩)
  · exact div_nonneg (by linarith) (le_of_lt hTpos)
  · rw [div_le_one hTpos]
    linarith
  · rw [div_eq_zero_iff]
    constructor
    · rintro (hz | hz)
      · exact (sub_eq_zero.mp hz).symm
      · exact absurd hz (ne_of_gt hTpos)
    · intro he
      left
      rw [he]
      ring

/-! ## Aggregation lemmas and claim C8 -/

theorem mem_insertTweet {l : List Tweet} {t u : Tweet} (h : u ∈ insertTweet l t) :
    u = t ∨ u ∈ l := by
  induction l with
  | nil =>
    rw [insertTweet] at h
    exact Or.inl (List.mem_singleton.mp h)
  | cons x xs ih =>
    rw [insertTweet] at h
    split_ifs at h
    · rcases List.mem_cons.mp h with rfl | h2
      · exact Or.inl rfl
      · exact Or.inr h2
    · rcases List.mem_cons.mp h with rfl | h2
      · exact Or.inl rfl
      · exact Or.inr (List.mem_cons_of_mem _ h2)
    · rcases List.mem_cons.mp h with rfl | h2
      · exact Or.inr (List.mem_cons_self _ _)
      · rcases ih h2 with h3 | h3
        · exact Or.inl h3
        · exact Or.inr (List.mem_cons_of_mem _ h3)

theorem insertTweet_sorted {l : List Tweet} (t : Tweet)
    (hs : l.Pairwise (fun s u => s.templateId < u.templateId)) :
    (insertTweet l t).Pairwise (fun s u => s.templateId < u.templateId) := by
  induction l with
  | nil => simp [insertTweet]
  | cons x xs ih =>
    rw [List.pairwise_cons] at hs
    obtain ⟨hx, hxs⟩ := hs
    rw [insertTweet]
    split_ifs with h1 h2
    · rw [List.pairwise_cons]
      refine ⟨?_, List.pairwise_cons.mpr ⟨hx, hxs⟩⟩
      intro u hu
      rcases List.mem_cons.mp hu with rfl | hu2
      · exact h1
      · exact lt_trans h1 (hx u hu2)
    · rw [List.pairwise_cons]
      exact ⟨fun u hu => h2 ▸ hx u hu, hxs⟩
    · rw [List.pairwise_cons]
      refine ⟨?_, ih hxs⟩
      intro u hu
      rcases mem_insertTweet hu with rfl | hu2
      · omega
      · exact hx u hu2

theorem insertTweet_comm (a b : Tweet) (hab : a.templateId ≠ b.templateId) :
    ∀ l : List Tweet, insertTweet (insertTweet l a) b = insertTweet (insertTweet l b) a := by
  intro l
  induction l with
  | nil =>
    simp only [insertTweet]
    split_ifs <;> first | rfl | omega
  | cons x xs ih =>
    simp only [insertTweet]
    split_ifs <;> (try simp only [insertTweet]) <;> (try split_ifs) <;>
      first
        | rfl
        | omega
        | rw [ih]

theorem foldl_insertTweet_sorted (rs : List TemplateRecord) :
    ∀ acc : List Tweet, acc.Pairwise (fun s u => s.templateId < u.templateId) →
    (rs.foldl (fun acc r => insertTweet acc (mkTweet r)) acc).Pairwise
      (fun s u => s.templateId < u.templateId) := by
  induction rs with
  | nil => intro acc h; exact h
  | cons r rs ih => intro acc h; exact ih _ (insertTweet_sorted _ h)

theorem getTemplates_sorted (pages : List (List TemplateRecord)) :
    (getTemplates pages).Pairwise (fun s u => s.templateId < u.templateId) :=
  foldl_insertTweet_sorted _ [] List.Pairwise.nil

theorem getTemplates_ids_nodup (pages : List (List TemplateRecord)) :
    ((getTemplates pages).map (fun t => t.templateId)).Nodup := by
  have hs := getTemplates_sorted pages
  rw [List.Nodup, List.pairwise_map]
  exact hs.imp (fun h => Nat.ne_of_lt h)

theorem getTemplates_perm (tp1 tp2 : List (List TemplateRecord))
    (hnd : (tp1.flatten.map (fun r => r.templateId)).Nodup)
    (ht : tp1.Perm tp2) : getTemplates tp1 = getTemplates tp2 := by
  rw [getTemplates, getTemplates]
  refine (ht.flatten).foldl_eq' ?_ []
  intro x hx y hy z
  by_cases hxy : x = y
  · rw [hxy]
  · have hne : x.templateId ≠ y.templateId :=
      fun he => hxy (List.inj_on_of_nodup_map hnd hx hy he)
    exact insertTweet_comm (mkTweet x) (mkTweet y) hne z

/-- **C8**: for a fixed set of template pages (with the keyed store's
unique template identifiers) and a fixed set of history pages, feeding the
pages to the aggregator in any order yields an identical enriched
population — same template entries, same usage counts. -/
theorem aggregationOrderIndependent (tp1 tp2 : List (List TemplateRecord))
    (hp1 hp2 : List (List HistoryRecord))
    (hnd : (tp1.flatten.map (fun r => r.templateId)).Nodup)
    (ht : tp1.Perm tp2) (hh : hp1.Perm hp2) :
    buildPopulation tp1 hp1 = buildPopulation tp2 hp2 := by
  have htemp : getTemplates tp1 = getTemplates tp2 := getTemplates_perm tp1 tp2 hnd ht
  rw [buildPopulation, buildPopulation, ← htemp]
  have hndT : ((getTemplates tp1).map (fun t => t.templateId)).Nodup :=
    getTemplates_ids_nodup tp1
  have hperm : hp1.flatten.Perm hp2.flatten := hh.flatten
  by_cases hall : ∀ r ∈ hp1.flatten,
      r.templateId ∈ (getTemplates tp1).map (fun t => t.templateId)
  · have hall2 : ∀ r ∈ hp2.flatten,
        r.templateId ∈ (getTemplates tp1).map (fun t => t.templateId) :=
      fun r hr => hall r (hperm.mem_iff.mpr hr)
    rw [getHistoryItems_char hndT hall, getHistoryItems_char hndT hall2]
    congr 1
    rw [specCounts, specCounts]
    apply List.map_congr_left
    intro t _
    have hcnt : (hp1.flatten.map (fun r => r.templateId)).count t.templateId =
        (hp2.flatten.map (fun r => r.templateId)).count t.templateId :=
      (hperm.map _).count_eq _
    rw [hcnt]
  · push_neg at hall
    obtain ⟨b, hb, hbad⟩ := hall
    rw [getHistoryItems_of_unknown ⟨b, hb, hbad⟩,
      getHistoryItems_of_unknown ⟨b, hperm.mem_iff.mp hb, hbad⟩]

/-- Witness for C8 at concrete two-page template and history sets, fed in
the two opposite orders. -/
theorem aggregationOrderIndependent_witness :
    (([[⟨1, "m", "s", true⟩], [⟨2, "n", "u", false⟩]] :
        List (List TemplateRecord)).flatten.map (fun r => r.templateId)).Nodup ∧
    ([[⟨1, "m", "s", true⟩], [⟨2, "n", "u", false⟩]] :
        List (List TemplateRecord)).Perm [[⟨2, "n", "u", false⟩], [⟨1, "m", "s", true⟩]] ∧
    ([[⟨1⟩], [⟨2⟩, ⟨1⟩]] : List (List HistoryRecord)).Perm [[⟨2⟩, ⟨1⟩], [⟨1⟩]] ∧
    buildPopulation [[⟨1, "m", "s", true⟩], [⟨2, "n", "u", false⟩]] [[⟨1⟩], [⟨2⟩, ⟨1⟩]] =
      buildPopulation [[⟨2, "n", "u", false⟩], [⟨1, "m", "s", true⟩]] [[⟨2⟩, ⟨1⟩], [⟨1⟩]] :=
  ⟨by decide, by decide, by decide,
    aggregationOrderIndependent _ _ _ _ (by decide) (by decide) (by decide)⟩

/-! ## Orchestrator lemmas and claims C6 and C10 -/

theorem failureSubject_ne_successSubject (slug : String) :
    failureSubject slug ≠ successSubject slug := by
  intro h
  have hlen := congrArg String.length h
  rw [failureSubject, successSubject, String.length_append, String.length_append] at hlen
  have e1 : ("ERROR tweeting about blog: " : String).length = 27 := rfl
  have e2 : ("Tweeted about blog: " : String).length = 20 := rfl
  omega

theorem callbackEffects_postFailure (tweet : Tweet) (sr : SendResult)
    (a b : Except String Unit) :
    callbackEffects (postFailureEffects tweet sr a b) = [] := by
  rcases a with e | u <;> rcases b with e2 | u2 <;>
    simp [postFailureEffects, callbackEffects]

/-- The chain before the catch emits no callback on any rejecting path. -/
theorem runChain_err_no_callback (inp : RunInput) (effs : List Effect) (e : String)
    (h : runChain inp = (effs, .err e)) : callbackEffects effs = [] := by
  rw [runChain] at h
  repeat' split at h
  all_goals injection h with h1 h2
  all_goals subst h1
  all_goals cases h2
  all_goals
    first
      | exact callbackEffects_postFailure _ _ _ _
      | simp [callbackEffects]

/-- **C6**: when the gate passes and the posting collaborator reports a
non-success status, the orchestrator writes exactly one error record keyed
by the chosen template with the failure details, publishes exactly one
failure notification whose subject differs from the success subject,
appends no history entry, and ends the run as Failed with the single error
callback — whatever the outcomes of the best-effort error-record write and
failure-notification publish, whose own failures are only logged. -/
theorem postFailureHandling (inp : RunInput) (tpages : List (List TemplateRecord))
    (hpages : List (List HistoryRecord)) (enriched : List Tweet) (tweet : Tweet)
    (posts : List RecentPost) (sr : SendResult)
    (h1 : inp.templates = .ok tpages)
    (h2 : inp.history = .ok hpages)
    (h3 : buildPopulation tpages hpages = some enriched)
    (h4 : randomTweet inp.q enriched = some tweet)
    (h5 : inp.credentials = .ok ())
    (h6 : inp.recent = .ok posts)
    (h7 : checkForNaturalTweets posts = true)
    (h8 : inp.send = .ok sr)
    (h9 : sr.resp.statusCode ≠ 200) :
    (handler inp).2 = .failed ∧
    errorRecordPuts (handler inp).1 =
      [.errorRecordPut tweet.templateId tweet.slug (statusString sr.resp)
        (inp.errorsPutOk matches .ok _)] ∧
    snsPublishesWith (failureSubject tweet.slug) (handler inp).1 =
      [.snsPublish (failureSubject tweet.slug) (inp.errorSnsPublishOk matches .ok _)] ∧
    historyPuts (handler inp).1 = [] ∧
    failureSubject tweet.slug ≠ successSubject tweet.slug ∧
    callbackEffects (handler inp).1 = [.callbackErr fixedCallbackError] := by
  have hrun : runChain inp =
      (postFailureEffects tweet sr inp.errorsPutOk inp.errorSnsPublishOk,
        .err (statusString sr.resp)) := by
    rw [runChain]
    simp only [h1, h2, h3, h4, h5, h6, h7, h8, if_true]
    rw [if_pos h9]
  have hh : handler inp =
      (postFailureEffects tweet sr inp.errorsPutOk inp.errorSnsPublishOk ++
        [.logError (statusString sr.resp), .callbackErr fixedCallbackError], .failed) := by
    rw [handler]
    simp only [hrun]
  rw [hh]
  refine ⟨rfl, ?_, ?_, ?_, failureSubject_ne_successSubject tweet.slug, ?_⟩ <;>
    rcases inp.errorsPutOk with e | u <;> rcases inp.errorSnsPublishOk with e2 | u2 <;>
      simp [postFailureEffects, errorRecordPuts, snsPublishesWith, historyPuts,
        callbackEffects]

/-- Witness for C6 at the concrete 403-response run. -/
theorem postFailureHandling_witness :
    postFailureRunInput.templates = .ok [[⟨1, "a post", "first-post", true⟩]] ∧
    postFailureRunInput.history = .ok [[⟨1⟩]] ∧
    buildPopulation [[⟨1, "a post", "first-post", true⟩]] [[⟨1⟩]] =
      some [⟨1, "a post", "first-post", true, 1⟩] ∧
    randomTweet postFailureRunInput.q [⟨1, "a post", "first-post", true, 1⟩] =
      some ⟨1, "a post", "first-post", true, 1⟩ ∧
    postFailureRunInput.credentials = .ok () ∧
    postFailureRunInput.recent = .ok [⟨"Twitter for iPhone"⟩] ∧
    checkForNaturalTweets [⟨"Twitter for iPhone"⟩] = true ∧
    postFailureRunInput.send =
      .ok ⟨⟨403, "Forbidden", "d"⟩, [⟨187, "duplicate"⟩], "9", "txt", "now", "u", "1"⟩ ∧
    (⟨⟨403, "Forbidden", "d"⟩, [⟨187, "duplicate"⟩], "9", "txt", "now", "u", "1"⟩ :
      SendResult).resp.statusCode ≠ 200 ∧
    ((handler postFailureRunInput).2 = .failed ∧
      errorRecordPuts (handler postFailureRunInput).1 =
        [.errorRecordPut (⟨1, "a post", "first-post", true, 1⟩ : Tweet).templateId
          (⟨1, "a post", "first-post", true, 1⟩ : Tweet).slug
          (statusString (⟨403, "Forbidden", "d"⟩ : PostResponse))
          (postFailureRunInput.errorsPutOk matches .ok _)] ∧
      snsPublishesWith (failureSubject (⟨1, "a post", "first-post", true, 1⟩ : Tweet).slug)
          (handler postFailureRunInput).1 =
        [.snsPublish (failureSubject (⟨1, "a post", "first-post", true, 1⟩ : Tweet).slug)
          (postFailureRunInput.errorSnsPublishOk matches .ok _)] ∧
      historyPuts (handler postFailureRunInput).1 = [] ∧
      failureSubject (⟨1, "a post", "first-post", true, 1⟩ : Tweet).slug ≠
        successSubject (⟨1, "a post", "first-post", true, 1⟩ : Tweet).slug ∧
      callbackEffects (handler postFailureRunInput).1 =
        [.callbackErr fixedCallbackError]) :=
  ⟨rfl, rfl, by decide, by decide, rfl, rfl, by decide, rfl, by decide,
    postFailureHandling postFailureRunInput [[⟨1, "a post", "first-post", true⟩]] [[⟨1⟩]]
      [⟨1, "a post", "first-post", true, 1⟩] ⟨1, "a post", "first-post", true, 1⟩
      [⟨"Twitter for iPhone"⟩]
      ⟨⟨403, "Forbidden", "d"⟩, [⟨187, "duplicate"⟩], "9", "txt", "now", "u", "1"⟩
      rfl rfl (by decide) (by decide) rfl rfl (by decide) rfl (by decide)⟩

/-- **C10**: every failing run — fetch, credential, selection or posting
failure — invokes the completion callback exactly once with the identical
fixed string "Error tweeting about blog"; the causes differ only in the
logged error. -/
theorem failedRunFixedCallback (inp : RunInput)
    (h : (handler inp).2 = .failed) :
    callbackEffects (handler inp).1 = [.callbackErr fixedCallbackError] := by
  rcases hr : runChain inp with ⟨effs, res⟩
  rcases res with slug | _ | e
  · rw [handler] at h
    simp only [hr] at h
    exact absurd h (by simp)
  · rw [handler] at h
    simp only [hr] at h
    exact absurd h (by simp)
  · rw [handler]
    simp only [hr]
    rw [callbackEffects, List.filter_append]
    have hc := runChain_err_no_callback inp effs e hr
    rw [callbackEffects] at hc
    rw [hc]
    simp [callbackEffects]

/-- Witness for C10 at the concrete fetch-failure run. -/
theorem failedRunFixedCallback_witness :
    (handler fetchFailureRunInput).2 = .failed ∧
    callbackEffects (handler fetchFailureRunInput).1 =
      [.callbackErr fixedCallbackError] :=
  ⟨by decide, failedRunFixedCallback fetchFailureRunInput (by decide)⟩

/-- Witness for C3's amended theorem at a concrete mixed population. -/
theorem weightsFrequencyInverseOverAll_witness :
    (⟨1, "m", "s", true, 2⟩ : Tweet) ∈
        ([⟨1, "m", "s", true, 2⟩, ⟨2, "n", "u", false, 1⟩] : List Tweet) ∧
    (⟨1, "m", "s", true, 2⟩ : Tweet).enabled = true ∧
    (codeWeights [⟨1, "m", "s", true, 2⟩, ⟨2, "n", "u", false, 1⟩] =
      (([⟨1, "m", "s", true, 2⟩, ⟨2, "n", "u", false, 1⟩] : List Tweet).filter
        (fun u => u.enabled)).map (fun u =>
          (⟨u.templateId, (codeTotal [⟨1, "m", "s", true, 2⟩, ⟨2, "n", "u", false, 1⟩] -
            (u.tweeted : ℚ)) / codeTotal [⟨1, "m", "s", true, 2⟩, ⟨2, "n", "u", false, 1⟩]⟩ :
              WeightEntry)) ∧
    (⟨(1 : Nat), (codeTotal [⟨1, "m", "s", true, 2⟩, ⟨2, "n", "u", false, 1⟩] -
        ((2 : Nat) : ℚ)) / codeTotal [⟨1, "m", "s", true, 2⟩, ⟨2, "n", "u", false, 1⟩]⟩ :
          WeightEntry) ∈ codeWeights [⟨1, "m", "s", true, 2⟩, ⟨2, "n", "u", false, 1⟩] ∧
    0 ≤ (codeTotal [⟨1, "m", "s", true, 2⟩, ⟨2, "n", "u", false, 1⟩] - ((2 : Nat) : ℚ)) /
        codeTotal [⟨1, "m", "s", true, 2⟩, ⟨2, "n", "u", false, 1⟩] ∧
    (codeTotal [⟨1, "m", "s", true, 2⟩, ⟨2, "n", "u", false, 1⟩] - ((2 : Nat) : ℚ)) /
        codeTotal [⟨1, "m", "s", true, 2⟩, ⟨2, "n", "u", false, 1⟩] ≤ 1 ∧
    ((codeTotal [⟨1, "m", "s", true, 2⟩, ⟨2, "n", "u", false, 1⟩] - ((2 : Nat) : ℚ)) /
        codeTotal [⟨1, "m", "s", true, 2⟩, ⟨2, "n", "u", false, 1⟩] = 0 ↔
      ((2 : Nat) : ℚ) = codeTotal [⟨1, "m", "s", true, 2⟩, ⟨2, "n", "u", false, 1⟩])) :=
  ⟨by decide, by decide,
    weightsFrequencyInverseOverAll [⟨1, "m", "s", true, 2⟩, ⟨2, "n", "u", false, 1⟩]
      ⟨1, "m", "s", true, 2⟩ (by decide) (by decide)⟩

end BlogTweet
